import Mathlib

/-!
Verification of the Stock-Gate polling bot (src/main.py).

The program fetches daily OHLC bars, computes a trailing moving average of
the closing prices, classifies the last price against the average into one
of the labels WEAK / MODERATE / STRONG, and publishes the label to a single
spreadsheet cell inside an infinite fixed-sleep loop.

Embedding choices:
- Python floats are modelled as exact rationals.
- A bar is modelled by the two dictionary fields the core logic reads: its
  timestamp key (used only as a sort key) and an optional close, since the
  code extracts closes with a membership guard and reads the last close
  with an unguarded dictionary access.
- Python exceptions are modelled by an error type carried in Except.
  ValueError realises the spec error InsufficientDataError and
  ZeroDivisionError realises the spec error DegenerateInputError.
- Network and spreadsheet effects are parameters: each cycle receives the
  result of the client setup, of the fetch and of the publish call, and the
  scheduler loop receives one such environment per tick.
-/

/-- Python exceptions that the modelled code paths can raise. -/
inductive PyError where
  | valueError : PyError
  | zeroDivisionError : PyError
  | keyError : PyError
  | runtimeError : PyError
  | httpError : PyError
deriving DecidableEq

/-- One daily bar, restricted to the dictionary fields read by the core
logic of src/main.py: the sort key t and the optional close c (the code
filters bars on membership of the key c, so a bar may lack a close). -/
structure Bar where
  t : Int
  c : Option ℚ
deriving DecidableEq

/-- Python slicing xs[i:] for an arbitrary integer index i: a negative
index counts from the end and is clamped at the start of the list, a
non-negative index is clamped at the end of the list. -/
def pySliceFrom (i : Int) (xs : List ℚ) : List ℚ :=
  if i < 0 then xs.drop ((xs.length : Int) + i).toNat
  else xs.drop i.toNat

/-- compute_moving_average from src/main.py lines 176-200.  Raises
ValueError on an empty bar list, extracts the closes of the bars that have
one, silently shrinks the window to the number of available closes when
they are fewer, then returns sum(closes[-window:]) / window; the division
raises ZeroDivisionError when the (possibly shrunk) window is zero. -/
def compute_moving_average (bars : List Bar) (window : Int) : Except PyError ℚ :=
  if bars = [] then .error .valueError
  else
    let closes := bars.filterMap Bar.c
    let window := if (closes.length : Int) < window then (closes.length : Int) else window
    let relevant := pySliceFrom (-window) closes
    if window = 0 then .error .zeroDivisionError
    else .ok (relevant.sum / (window : ℚ))

/-- classify_trend from src/main.py lines 203-231.  Computes
diff_pct = (last_price - ma_value) / ma_value * 100, which raises
ZeroDivisionError when ma_value is zero, then classifies by the ordered
threshold tests: WEAK when last_price > ma_value * 1.10, else MODERATE
when last_price >= ma_value, else STRONG. -/
def classify_trend (last_price ma_value : ℚ) : Except PyError (String × ℚ) :=
  if ma_value = 0 then .error .zeroDivisionError
  else
    let diff_pct := (last_price - ma_value) / ma_value * 100
    let label :=
      if last_price > ma_value * (11 / 10) then "WEAK"
      else if last_price ≥ ma_value then "MODERATE"
      else "STRONG"
    .ok (label, diff_pct)

/-- The pure post-processing of fetch_rsp_daily_bars (src/main.py lines
136-169) applied to the parsed response body: an empty bar list is
returned as is, a non-empty one is sorted ascending by timestamp (Python
sorted with key t is a stable sort, modelled by insertion sort). -/
def process_bars (bars : List Bar) : List Bar :=
  if bars = [] then [] else List.insertionSort (fun a b => a.t ≤ b.t) bars

/-- run_once from src/main.py lines 234-291, with the external effects
passed in as results: setupRes stands for the Google Sheets client and
worksheet resolution, fetchRes for the Alpaca fetch, publishRes for the
single-cell update.  An empty bar list ends the cycle with no publish and
no error.  Otherwise the moving average is computed, the last close is
read by an unguarded dictionary access (KeyError when absent), the trend
is classified and the label is published; the optional read of the
previous cell value is wrapped in its own try/except in the source and
cannot affect the outcome, so it is not modelled.  The returned value is
some label when the publisher wrote the label, none when the cycle ended
without invoking the publisher. -/
def run_once (setupRes : Except PyError Unit) (fetchRes : Except PyError (List Bar))
    (publishRes : Except PyError Unit) (window : Int) : Except PyError (Option String) :=
  match setupRes with
  | .error e => .error e
  | .ok _ =>
    match fetchRes with
    | .error e => .error e
    | .ok bars =>
      if hb : bars = [] then .ok none
      else
        match compute_moving_average bars window with
        | .error e => .error e
        | .ok ma_value =>
          match (bars.getLast hb).c with
          | none => .error .keyError
          | some last_price =>
            match classify_trend last_price ma_value with
            | .error e => .error e
            | .ok (label, _) =>
              match publishRes with
              | .error e => .error e
              | .ok _ => .ok (some label)

/-- The record the scheduler boundary leaves behind for one tick: the
cycle outcome as caught by the try/except in main (src/main.py lines
303-310), and the duration of the sleep that follows it. -/
structure CycleRecord where
  outcome : Except PyError (Option String)
  slept : Int

/-- The scheduler loop of main (src/main.py lines 294-310), unrolled for n
ticks.  Each tick runs one cycle against the environment of that tick, catches
whatever the cycle produced at the boundary, and sleeps for the fixed
interval; the loop itself never ends, so the first n ticks always produce
exactly n records. -/
def main_loop (setup : Nat → Except PyError Unit) (fetch : Nat → Except PyError (List Bar))
    (publish : Nat → Except PyError Unit) (window interval : Int) : Nat → List CycleRecord
  | 0 => []
  | n + 1 =>
    main_loop setup fetch publish window interval n ++
      [⟨run_once (setup n) (fetch n) (publish n) window, interval⟩]

/-- C4: compute_moving_average on an empty bar series raises ValueError
(the realisation of InsufficientDataError) for every window, rather than
returning a value. -/
theorem compute_moving_average_empty (window : Int) :
    compute_moving_average [] window = .error .valueError := rfl

/-- C5: classify_trend with a zero moving average raises ZeroDivisionError
(the realisation of DegenerateInputError) for every last price, because
the division defining diff_pct is undefined; no label is returned. -/
theorem classify_trend_zero_ma (last_price : ℚ) :
    classify_trend last_price 0 = .error .zeroDivisionError := rfl

/-- C1: for every last price and non-zero moving average, classify_trend
returns the label of the ordered threshold tests (WEAK on strictly more
than +10 percent, else MODERATE on at or above the average, else STRONG),
and on the boundary examples with movingAverage = 100: 110 is MODERATE
(the +10 percent boundary is excluded from WEAK), 110.0001 is WEAK, 100 is
MODERATE and 99.999 is STRONG. -/
theorem classify_trend_thresholds :
    (∀ last_price ma_value : ℚ, ma_value ≠ 0 →
      (classify_trend last_price ma_value).map Prod.fst =
        .ok (if last_price > ma_value * (11 / 10) then "WEAK"
          else if last_price ≥ ma_value then "MODERATE" else "STRONG")) ∧
    (classify_trend 110 100).map Prod.fst = .ok "MODERATE" ∧
    (classify_trend 110.0001 100).map Prod.fst = .ok "WEAK" ∧
    (classify_trend 100 100).map Prod.fst = .ok "MODERATE" ∧
    (classify_trend 99.999 100).map Prod.fst = .ok "STRONG" := by
  refine ⟨?_, ?_, ?_, ?_, ?_⟩
  · intro last_price ma_value h
    simp only [classify_trend, if_neg h, Except.map]
  · norm_num [classify_trend, Except.map]
  · norm_num [classify_trend, Except.map]
  · norm_num [classify_trend, Except.map]
  · norm_num [classify_trend, Except.map]

/-- Witness for C1: the general threshold clause applied at the concrete
point last_price = 120, ma_value = 100, where the strict test fires. -/
theorem classify_trend_thresholds_witness :
    (classify_trend 120 100).map Prod.fst = .ok "WEAK" := by
  have h := classify_trend_thresholds.1 120 100 (by norm_num)
  rw [h]
  norm_num

/-- C6: for every last price and non-zero moving average, the diff_pct
component returned by classify_trend is exactly
(last_price - ma_value) / ma_value * 100, and at last_price = 105,
ma_value = 100 the result is the label MODERATE with diff_pct exactly 5. -/
theorem classify_trend_diff_pct :
    (∀ last_price ma_value : ℚ, ma_value ≠ 0 →
      ∃ label, classify_trend last_price ma_value =
        .ok (label, (last_price - ma_value) / ma_value * 100)) ∧
    classify_trend 105 100 = .ok ("MODERATE", 5) := by
  constructor
  · intro last_price ma_value h
    refine ⟨if last_price > ma_value * (11 / 10) then "WEAK"
      else if last_price ≥ ma_value then "MODERATE" else "STRONG", ?_⟩
    simp only [classify_trend, if_neg h]
  · norm_num [classify_trend]

/-- Witness for C6: the diff_pct clause applied at last_price = 3,
ma_value = 2. -/
theorem classify_trend_diff_pct_witness :
    ∃ label, classify_trend 3 2 = .ok (label, (3 - 2) / 2 * 100) :=
  classify_trend_diff_pct.1 3 2 (by norm_num)

/-- C2: on a non-empty bar series with at least window available closes
(window at least 1), compute_moving_average returns exactly the arithmetic
mean of the last window closing prices. -/
theorem compute_moving_average_mean (bars : List Bar) (window : Int)
    (hb : bars ≠ []) (h1 : 1 ≤ window)
    (h2 : window ≤ ((bars.filterMap Bar.c).length : Int)) :
    compute_moving_average bars window =
      .ok (((bars.filterMap Bar.c).drop
          ((bars.filterMap Bar.c).length - window.toNat)).sum / (window : ℚ)) := by
  have hlt : ¬(((bars.filterMap Bar.c).length : Int) < window) := not_lt.mpr h2
  have hw0 : window ≠ 0 := by omega
  have hneg : -window < 0 := by omega
  have hdrop : (((bars.filterMap Bar.c).length : Int) + -window).toNat =
      (bars.filterMap Bar.c).length - window.toNat := by omega
  simp only [compute_moving_average, if_neg hb, if_neg hlt, if_neg hw0,
    pySliceFrom, if_pos hneg, hdrop]

/-- Witness for C2: two bars with closes 1 and 3 and window 2 give the
mean 2 of the last two closes. -/
theorem compute_moving_average_mean_witness :
    compute_moving_average [Bar.mk 0 (some 1), Bar.mk 1 (some 3)] 2 = .ok 2 := by
  have h := compute_moving_average_mean [Bar.mk 0 (some 1), Bar.mk 1 (some 3)] 2
    (by simp) (by norm_num) (by simp [List.filterMap])
  rw [h]
  norm_num [List.filterMap]

/-- Counterexample to C3 as stated: the single-bar series whose bar lacks
a close is non-empty and its window 1 exceeds its zero available closes,
yet compute_moving_average raises ZeroDivisionError instead of returning
the mean of the (empty) close list. -/
theorem compute_moving_average_shrink_counterexample :
    [Bar.mk 0 none] ≠ [] ∧
    (([Bar.mk 0 none] : List Bar).filterMap Bar.c).length = 0 ∧
    compute_moving_average [Bar.mk 0 none] 1 = .error .zeroDivisionError :=
  ⟨by simp, by simp [List.filterMap], rfl⟩

/-- C3 amended: on a non-empty bar series with at least one available
close and a window strictly larger than the number of available closes,
compute_moving_average raises no error and returns the arithmetic mean of
the entire close list. -/
theorem compute_moving_average_shrink (bars : List Bar) (window : Int)
    (hb : bars ≠ []) (hc : bars.filterMap Bar.c ≠ [])
    (h : ((bars.filterMap Bar.c).length : Int) < window) :
    compute_moving_average bars window =
      .ok ((bars.filterMap Bar.c).sum / ((bars.filterMap Bar.c).length : ℚ)) := by
  have hlen : 0 < (bars.filterMap Bar.c).length := List.length_pos.mpr hc
  have hw0 : ((bars.filterMap Bar.c).length : Int) ≠ 0 := by omega
  have hneg : -((bars.filterMap Bar.c).length : Int) < 0 := by omega
  have hdrop : (((bars.filterMap Bar.c).length : Int) +
      -((bars.filterMap Bar.c).length : Int)).toNat = 0 := by omega
  simp only [compute_moving_average, if_neg hb, if_pos h, if_neg hw0,
    pySliceFrom, if_pos hneg, hdrop, List.drop_zero, Int.cast_natCast]

/-- Witness for the amended C3: one bar with close 4 and window 5 shrink
to the single available close, giving mean 4. -/
theorem compute_moving_average_shrink_witness :
    compute_moving_average [Bar.mk 0 (some 4)] 5 = .ok 4 := by
  have h := compute_moving_average_shrink [Bar.mk 0 (some 4)] 5
    (by simp) (by simp [List.filterMap]) (by simp [List.filterMap])
  rw [h]
  norm_num [List.filterMap]

/-- C10: the non-empty series whose only bar lacks a close passes the
non-empty check of compute_moving_average, shrinks the window to the zero
available closes and hits the unguarded division by zero; and under the
stronger precondition that at least one bar carries a close (with a
positive requested window), the division can never be a division by
zero. -/
theorem compute_moving_average_div_zero_gap :
    ([Bar.mk 0 none] ≠ [] ∧
      compute_moving_average [Bar.mk 0 none] 960 ≠ .error .valueError ∧
      compute_moving_average [Bar.mk 0 none] 960 = .error .zeroDivisionError) ∧
    (∀ (bars : List Bar) (window : Int), bars.filterMap Bar.c ≠ [] →
      1 ≤ window →
      compute_moving_average bars window ≠ .error .zeroDivisionError) := by
  constructor
  · exact ⟨by simp, by simp [compute_moving_average, pySliceFrom, List.filterMap], rfl⟩
  · intro bars window hc hw
    have hb : bars ≠ [] := by
      intro hnil
      rw [hnil] at hc
      simp [List.filterMap] at hc
    have hlen : 0 < (bars.filterMap Bar.c).length := List.length_pos.mpr hc
    by_cases hlt : ((bars.filterMap Bar.c).length : Int) < window
    · have h0 : ((bars.filterMap Bar.c).length : Int) ≠ 0 := by omega
      simp only [compute_moving_average, if_neg hb, if_pos hlt, if_neg h0]
      simp
    · have h0 : window ≠ 0 := by omega
      simp only [compute_moving_average, if_neg hb, if_neg hlt, if_neg h0]
      simp

/-- Witness for C10: a series with one close and window 1 cannot hit the
division by zero. -/
theorem compute_moving_average_div_zero_gap_witness :
    compute_moving_average [Bar.mk 0 (some 1)] 1 ≠ .error .zeroDivisionError :=
  compute_moving_average_div_zero_gap.2 [Bar.mk 0 (some 1)] 1
    (by simp [List.filterMap]) (by norm_num)

instance : IsTotal Bar (fun a b => a.t ≤ b.t) :=
  ⟨fun a b => Int.le_total a.t b.t⟩

instance : IsTrans Bar (fun a b => a.t ≤ b.t) :=
  ⟨fun _ _ _ h1 h2 => le_trans h1 h2⟩

/-- In a list sorted by timestamp, every element has a timestamp at most
that of the last element. -/
theorem sorted_le_getLast :
    ∀ (l : List Bar) (hl : l ≠ []), l.Sorted (fun a b => a.t ≤ b.t) →
      ∀ x ∈ l, x.t ≤ (l.getLast hl).t := by
  intro l
  induction l with
  | nil => intro hl; exact absurd rfl hl
  | cons a l ih =>
    intro _ hs x hx
    cases l with
    | nil =>
      rcases List.mem_singleton.mp hx with rfl
      exact le_refl _
    | cons b l2 =>
      rw [List.getLast_cons (List.cons_ne_nil b l2)]
      rcases List.mem_cons.mp hx with rfl | hx2
      · have hlast : (b :: l2).getLast (List.cons_ne_nil b l2) ∈ b :: l2 :=
          List.getLast_mem (List.cons_ne_nil b l2)
        exact (List.rel_of_sorted_cons hs) _ hlast
      · exact ih (List.cons_ne_nil b l2) (List.sorted_cons.mp hs).2 x hx2

/-- C7: for every non-empty bar list, in any order, the processed series
returned by the fetch is a permutation of the input sorted ascending by
timestamp, and its last element is a bar of the input whose timestamp is
at least the timestamp of every input bar. -/
theorem process_bars_sorted (bars : List Bar) (hb : bars ≠ []) :
    (process_bars bars).Sorted (fun a b => a.t ≤ b.t) ∧
    (process_bars bars).Perm bars ∧
    ∃ h : process_bars bars ≠ [],
      (process_bars bars).getLast h ∈ bars ∧
      ∀ b ∈ bars, b.t ≤ ((process_bars bars).getLast h).t := by
  have hpb : process_bars bars = List.insertionSort (fun a b => a.t ≤ b.t) bars := by
    simp only [process_bars, if_neg hb]
  rw [hpb]
  have hs := List.sorted_insertionSort (fun a b : Bar => a.t ≤ b.t) bars
  have hp := List.perm_insertionSort (fun a b : Bar => a.t ≤ b.t) bars
  have hne : List.insertionSort (fun a b : Bar => a.t ≤ b.t) bars ≠ [] := by
    intro hnil
    exact hb (hnil ▸ hp.symm).eq_nil
  refine ⟨hs, hp, hne, ?_, ?_⟩
  · exact hp.mem_iff.mp (List.getLast_mem hne)
  · intro b hbmem
    exact sorted_le_getLast _ hne hs b (hp.mem_iff.mpr hbmem)

/-- Witness for C7: a two-bar list given in reversed timestamp order is
returned in ascending order. -/
theorem process_bars_sorted_witness :
    (process_bars [Bar.mk 2 none, Bar.mk 1 none]).Sorted (fun a b => a.t ≤ b.t) :=
  (process_bars_sorted [Bar.mk 2 none, Bar.mk 1 none] (by simp)).1

/-- C8: a cycle whose client setup succeeds and whose fetch succeeds with
zero bars ends with .ok none: no label is produced for the publisher, no
moving average is demanded, and no error escapes; the outcome is the same
whatever the publish environment would have done, so the publisher is
never invoked. -/
theorem run_once_empty_bars (publishRes : Except PyError Unit) (window : Int) :
    run_once (.ok ()) (.ok []) publishRes window = .ok none := rfl

/-- The unrolled scheduler loop produces exactly one record per tick: no
cycle outcome, error or not, terminates the loop early. -/
theorem main_loop_length (setup : Nat → Except PyError Unit)
    (fetch : Nat → Except PyError (List Bar)) (publish : Nat → Except PyError Unit)
    (window interval : Int) :
    ∀ n, (main_loop setup fetch publish window interval n).length = n := by
  intro n
  induction n with
  | zero => rfl
  | succ n ih => simp [main_loop, ih]

/-- Every record of the unrolled scheduler loop is followed by the fixed
configured sleep, whatever its cycle outcome was. -/
theorem main_loop_slept (setup : Nat → Except PyError Unit)
    (fetch : Nat → Except PyError (List Bar)) (publish : Nat → Except PyError Unit)
    (window interval : Int) :
    ∀ n, ∀ r ∈ main_loop setup fetch publish window interval n, r.slept = interval := by
  intro n
  induction n with
  | zero => intro r hr; simp [main_loop] at hr
  | succ n ih =>
    intro r hr
    rcases List.mem_append.mp hr with h1 | h2
    · exact ih r h1
    · rw [List.mem_singleton.mp h2]

/-- C9: for every environment of setup, fetch and publish results, every
window and interval and every tick count n, the scheduler loop has
completed exactly n cycles after n ticks and each cycle, whatever its
outcome (including a publish failure recorded as an error outcome), was
followed by the fixed-duration sleep; no cycle-level error ends the
loop. -/
theorem main_loop_survives_all_errors (setup : Nat → Except PyError Unit)
    (fetch : Nat → Except PyError (List Bar)) (publish : Nat → Except PyError Unit)
    (window interval : Int) (n : Nat) :
    (main_loop setup fetch publish window interval n).length = n ∧
    ∀ r ∈ main_loop setup fetch publish window interval n, r.slept = interval :=
  ⟨main_loop_length setup fetch publish window interval n,
    main_loop_slept setup fetch publish window interval n⟩

/-- Witness for C9: an environment whose every publish call fails still
yields two completed cycles after two ticks, each followed by the
configured 60 second sleep. -/
theorem main_loop_survives_all_errors_witness :
    (main_loop (fun _ => .ok ()) (fun _ => .ok [Bar.mk 0 (some 5)])
      (fun _ => .error .httpError) 1 60 2).length = 2 ∧
    ∀ r ∈ main_loop (fun _ => .ok ()) (fun _ => .ok [Bar.mk 0 (some 5)])
      (fun _ => .error .httpError) 1 60 2, r.slept = 60 :=
  main_loop_survives_all_errors (fun _ => .ok ()) (fun _ => .ok [Bar.mk 0 (some 5)])
    (fun _ => .error .httpError) 1 60 2
